import Mathlib

/-!
Verification of the prompt-refinement browser extension (intent-prompts).

The definitions below are a shallow embedding of the TypeScript sources:
`src/errors.ts` (unified chat client), `src/providers.ts` (provider registry),
`src/providerStorage.ts` (credential store), the storage module
(`src/unnamed/part_002`), `src/background.ts` (message handlers),
`src/ClarificationChat.tsx` (conversation driver) and `src/PromptEditor.tsx`
(editor archival behavior).  Network and chrome-storage effects are made
explicit: every fetch response and every storage read outcome is an argument
of the embedded function, so each function is a pure function of its inputs
exactly as the corresponding TypeScript is a pure function of its inputs and
the values returned by its awaited calls.
-/

namespace IntentPrompts

/-- Provider identifiers: the closed enumeration from `src/providers.ts`. -/
inductive ProviderId
  | openai
  | anthropic
  | google
deriving DecidableEq, Repr

/-- Static provider configuration from `src/providers.ts`. -/
structure ProviderConfig where
  id : ProviderId
  name : String
  apiBaseUrl : String
  defaultModel : String
  models : List String
  apiKeyHeader : String
deriving DecidableEq, Repr

/-- Message roles of the unified chat request (`src/errors.ts`, ChatMessage). -/
inductive Role
  | system
  | user
  | assistant
deriving DecidableEq, Repr

instance : BEq Role := ⟨fun a b => decide (a = b)⟩

instance : LawfulBEq Role where
  eq_of_beq h := by simpa [BEq.beq] using h
  rfl := by intro a; simp [BEq.beq]

/-- A unified chat message (`src/errors.ts`, interface ChatMessage). -/
structure ChatMessage where
  role : Role
  content : String
deriving DecidableEq, Repr

/-- The provider-agnostic request accepted by `chatCompletion`. -/
structure ChatCompletionRequest where
  model : String
  messages : List ChatMessage
  temperature : Option Rat
deriving DecidableEq, Repr

/-- The normalized response (`src/errors.ts`, interface ChatCompletionResponse). -/
structure ChatCompletionResponse where
  content : String
deriving DecidableEq, Repr

/-- The wire role string of a unified role, as serialized in JSON. -/
def Role.toWire : Role → String
  | .system => "system"
  | .user => "user"
  | .assistant => "assistant"

/-- A role-tagged message as it appears on the wire. -/
structure WireMessage where
  role : String
  content : String
deriving DecidableEq, Repr

/-- The OpenAI-style request: url, headers and flat body from `openAIChatCompletion`. -/
structure OpenAIRequest where
  url : String
  headers : List (String × String)
  model : String
  messages : List WireMessage
  temperature : Rat
deriving DecidableEq

/-- Request built by `openAIChatCompletion` in `src/errors.ts`: inline role-tagged
messages, bearer-token header. -/
def openAIRequest (apiKey baseUrl model : String) (messages : List ChatMessage)
    (temperature : Rat) : OpenAIRequest :=
  ⟨baseUrl ++ "/chat/completions",
   [("Content-Type", "application/json"), ("Authorization", "Bearer " ++ apiKey)],
   model,
   messages.map (fun m => ⟨m.role.toWire, m.content⟩),
   temperature⟩

/-- The Anthropic-style request: system content lifted out of the message array
into a top-level field, mandatory max-token cap. -/
structure AnthropicRequest where
  url : String
  headers : List (String × String)
  model : String
  max_tokens : Nat
  temperature : Rat
  messages : List WireMessage
  system : Option String
deriving DecidableEq

/-- Request built by `anthropicChatCompletion` in `src/errors.ts`: the first
system message is lifted into the top-level `system` field, system messages are
filtered out of `messages`, every remaining role is mapped to "assistant" or
"user", and `max_tokens` is always 4096. -/
def anthropicRequest (apiKey baseUrl model : String) (messages : List ChatMessage)
    (temperature : Rat) : AnthropicRequest :=
  let systemMessage := messages.find? (fun m => m.role == Role.system)
  let conversationMessages := messages.filter (fun m => !(m.role == Role.system))
  ⟨baseUrl ++ "/messages",
   [("Content-Type", "application/json"), ("x-api-key", apiKey),
    ("anthropic-version", "2023-06-01")],
   model,
   4096,
   temperature,
   conversationMessages.map
     (fun m => ⟨if m.role == Role.assistant then "assistant" else "user", m.content⟩),
   systemMessage.map (fun m => m.content)⟩

/-- One text part of a Google-style content item. -/
structure GooglePart where
  text : String
deriving DecidableEq

/-- One Google-style content item: a role and a parts array. -/
structure GoogleContent where
  role : String
  parts : List GooglePart
deriving DecidableEq

/-- The Google-style top-level system instruction object. -/
structure GoogleSystemInstruction where
  parts : List GooglePart
deriving DecidableEq

/-- The Google-style request: contents with nested parts, system instruction as
a sibling top-level field, API key carried in the URL. -/
structure GoogleRequest where
  url : String
  headers : List (String × String)
  contents : List GoogleContent
  temperature : Rat
  systemInstruction : Option GoogleSystemInstruction
deriving DecidableEq

/-- Request built by `googleChatCompletion` in `src/errors.ts`: system messages
filtered out, assistant renamed to "model", content nested under a parts array,
system turn in `systemInstruction`, and the API key appended to the URL as a
query parameter while the headers carry only the content type. -/
def googleRequest (apiKey baseUrl model : String) (messages : List ChatMessage)
    (temperature : Rat) : GoogleRequest :=
  let systemInstruction := messages.find? (fun m => m.role == Role.system)
  let conversationMessages := messages.filter (fun m => !(m.role == Role.system))
  ⟨baseUrl ++ "/" ++ model ++ ":generateContent?key=" ++ apiKey,
   [("Content-Type", "application/json")],
   conversationMessages.map
     (fun m => ⟨if m.role == Role.assistant then "model" else "user", [⟨m.content⟩]⟩),
   temperature,
   systemInstruction.map (fun m => ⟨[⟨m.content⟩]⟩)⟩

/-! Response handling of the unified chat client (`src/errors.ts`).

The repository has no dedicated error classes for provider failures: every
failure path in `src/errors.ts` throws a plain JavaScript `Error` with a
message string.  The only named error class defined in the repository is
`ClarificationNeededError`.  `JsError` mirrors the thrown values; `JsError.jsName`
is the runtime `name` property used to distinguish error classes. -/

/-- A thrown JavaScript error value, as the repository actually constructs them:
either a plain `Error` with a message, or the one named class
`ClarificationNeededError` from `src/errors.ts`. -/
inductive JsError
  | generic (message : String)
  | clarificationNeeded (question : String)
deriving DecidableEq, Repr

/-- The runtime `name` property of a thrown error, by which JavaScript callers
distinguish error classes. -/
def JsError.jsName : JsError → String
  | .generic _ => "Error"
  | .clarificationNeeded _ => "ClarificationNeededError"

/-- The runtime `message` property of a thrown error. -/
def JsError.jsMessage : JsError → String
  | .generic m => m
  | .clarificationNeeded _ => "Clarification needed"

/-- JavaScript `String.prototype.trim`, modelled executably: strip leading and
trailing whitespace characters. -/
def jsTrim (s : String) : String :=
  ⟨((s.data.dropWhile Char.isWhitespace).reverse.dropWhile Char.isWhitespace).reverse⟩

/-- JavaScript string truthiness on an optional string: `undefined` and the
empty string are falsy. -/
def strTruthy : Option String → Bool
  | none => false
  | some s => !(s == "")

/-- An HTTP fetch response as observed by the provider functions: the `ok`
flag, the numeric status, the raw body text read on failure, and the parsed
JSON data read on success. -/
structure HttpResponse (α : Type) where
  ok : Bool
  status : Nat
  errText : String
  data : α
deriving DecidableEq, Repr

/-- Parsed OpenAI response message: `content` may be absent. -/
structure OpenAIChoiceMessage where
  content : Option String
deriving DecidableEq, Repr

/-- Parsed OpenAI response choice: `message` may be absent. -/
structure OpenAIChoice where
  message : Option OpenAIChoiceMessage
deriving DecidableEq, Repr

/-- Parsed OpenAI response body: `choices` may be absent. -/
structure OpenAIData where
  choices : Option (List OpenAIChoice)
deriving DecidableEq, Repr

/-- The optional-chain `data.choices?.[0]?.message?.content?.trim()` from
`openAIChatCompletion`. -/
def extractOpenAI (d : OpenAIData) : Option String :=
  ((((d.choices.bind (fun cs => cs[0]?)).bind
      (fun c => c.message)).bind
      (fun m => m.content)).map jsTrim)

/-- Response handling of `openAIChatCompletion` in `src/errors.ts`: a non-ok
status throws a plain `Error` embedding status and body; a success response
with no usable trimmed text throws a plain `Error`; otherwise the trimmed
content is returned. -/
def openAIChatCompletion (resp : HttpResponse OpenAIData) :
    Except JsError ChatCompletionResponse :=
  if resp.ok = false then
    .error (.generic ("OpenAI API error (" ++ toString resp.status ++ "): " ++ resp.errText))
  else
    match extractOpenAI resp.data with
    | some c =>
        if c = "" then .error (.generic "OpenAI API returned no content")
        else .ok ⟨c⟩
    | none => .error (.generic "OpenAI API returned no content")

/-- Parsed Anthropic response content item: `text` may be absent. -/
structure AnthropicContentItem where
  text : Option String
deriving DecidableEq, Repr

/-- Parsed Anthropic response body: `content` may be absent. -/
structure AnthropicData where
  content : Option (List AnthropicContentItem)
deriving DecidableEq, Repr

/-- The optional-chain `data.content?.[0]?.text?.trim()` from
`anthropicChatCompletion`. -/
def extractAnthropic (d : AnthropicData) : Option String :=
  (((d.content.bind (fun cs => cs[0]?)).bind
      (fun c => c.text)).map jsTrim)

/-- Response handling of `anthropicChatCompletion` in `src/errors.ts`. -/
def anthropicChatCompletion (resp : HttpResponse AnthropicData) :
    Except JsError ChatCompletionResponse :=
  if resp.ok = false then
    .error (.generic ("Anthropic API error (" ++ toString resp.status ++ "): " ++ resp.errText))
  else
    match extractAnthropic resp.data with
    | some c =>
        if c = "" then .error (.generic "Anthropic API returned no content")
        else .ok ⟨c⟩
    | none => .error (.generic "Anthropic API returned no content")

/-- Parsed Google response part: `text` may be absent. -/
structure GoogleRespPart where
  text : Option String
deriving DecidableEq, Repr

/-- Parsed Google response content: `parts` may be absent. -/
structure GoogleRespContent where
  parts : Option (List GoogleRespPart)
deriving DecidableEq, Repr

/-- Parsed Google response candidate: `content` may be absent. -/
structure GoogleCandidate where
  content : Option GoogleRespContent
deriving DecidableEq, Repr

/-- Parsed Google response body: `candidates` may be absent. -/
structure GoogleData where
  candidates : Option (List GoogleCandidate)
deriving DecidableEq, Repr

/-- The optional-chain `data.candidates?.[0]?.content?.parts?.[0]?.text?.trim()`
from `googleChatCompletion`. -/
def extractGoogle (d : GoogleData) : Option String :=
  ((((((d.candidates.bind (fun cs => cs[0]?)).bind
      (fun c => c.content)).bind
      (fun c => c.parts)).bind
      (fun ps => ps[0]?)).bind
      (fun p => p.text)).map jsTrim)

/-- Response handling of `googleChatCompletion` in `src/errors.ts`. -/
def googleChatCompletion (resp : HttpResponse GoogleData) :
    Except JsError ChatCompletionResponse :=
  if resp.ok = false then
    .error (.generic ("Google API error (" ++ toString resp.status ++ "): " ++ resp.errText))
  else
    match extractGoogle resp.data with
    | some c =>
        if c = "" then .error (.generic "Google API returned no content")
        else .ok ⟨c⟩
    | none => .error (.generic "Google API returned no content")

/-! The `chatCompletion` wrapper of `src/errors.ts`: provider dispatch plus
diagnostic logging.  The network is modelled as a `FetchWorld` giving the HTTP
response each provider endpoint would return for the session. -/

/-- The HTTP responses the three provider endpoints would return. -/
structure FetchWorld where
  openai : HttpResponse OpenAIData
  anthropic : HttpResponse AnthropicData
  google : HttpResponse GoogleData
deriving DecidableEq, Repr

/-- One console log record emitted by `chatCompletion`: the outgoing-request
record, the response-preview record, or the error record, with exactly the
fields the source logs. -/
inductive LogEntry
  | request (provider : ProviderId) (model : String) (temperature : Rat)
      (messages : List ChatMessage)
  | response (provider : ProviderId) (model : String) (contentPreview : String)
  | failure (provider : ProviderId) (model : String) (temperature : Rat)
      (messages : List ChatMessage) (errorMessage : String)
deriving DecidableEq, Repr

/-- The provider-specific wire request actually sent. -/
inductive WireRequest
  | openai (r : OpenAIRequest)
  | anthropic (r : AnthropicRequest)
  | google (r : GoogleRequest)
deriving DecidableEq

/-- The `chatCompletion` function of `src/errors.ts`: defaults the temperature
to 0.7, logs the outgoing request (provider id, model, temperature, message
list — no API key), dispatches on the provider id to build the wire request and
interpret the endpoint's response, then logs either a 500-character response
preview or an error record echoing the request fields and the error message.
Returns the wire request sent, the result, and the emitted log records. -/
def chatCompletion (provider : ProviderConfig) (apiKey : String)
    (request : ChatCompletionRequest) (world : FetchWorld) :
    WireRequest × Except JsError ChatCompletionResponse × List LogEntry :=
  let temperature := request.temperature.getD (7 / 10 : Rat)
  let reqLog := LogEntry.request provider.id request.model temperature request.messages
  let wire :=
    match provider.id with
    | .openai =>
        WireRequest.openai
          (openAIRequest apiKey provider.apiBaseUrl request.model request.messages temperature)
    | .anthropic =>
        WireRequest.anthropic
          (anthropicRequest apiKey provider.apiBaseUrl request.model request.messages temperature)
    | .google =>
        WireRequest.google
          (googleRequest apiKey provider.apiBaseUrl request.model request.messages temperature)
  let result :=
    match provider.id with
    | .openai => openAIChatCompletion world.openai
    | .anthropic => anthropicChatCompletion world.anthropic
    | .google => googleChatCompletion world.google
  match result with
  | .ok r =>
      (wire, .ok r,
       [reqLog, LogEntry.response provider.id request.model (r.content.take 500)])
  | .error e =>
      (wire, .error e,
       [reqLog,
        LogEntry.failure provider.id request.model temperature request.messages e.jsMessage])

/-! Credential/selection store (`src/providerStorage.ts`).  Each getter
performs one chrome-storage read, modelled as an `Except` outcome passed in:
`Except.error` is a rejected storage promise, `Except.ok` the resolved items.
The stored API-key object may be absent from storage (the `|| ` fallback to an
empty object), and is modelled as an association list. -/

/-- The stored provider-to-key mapping (interface ProviderApiKeys). -/
abbrev ProviderApiKeys := List (ProviderId × String)

/-- JavaScript property lookup `keys[providerId]` on the stored key object. -/
def lookupKey (keys : ProviderApiKeys) (providerId : ProviderId) : Option String :=
  (keys.find? (fun kv => kv.1 == providerId)).map (fun kv => kv.2)

/-- The `getProviderApiKey` function of `src/providerStorage.ts`: on a failed
storage read it logs and returns `undefined`; on success it defaults a missing
key object to empty and looks the provider up. -/
def getProviderApiKey (providerId : ProviderId)
    (readResult : Except String (Option ProviderApiKeys)) : Option String :=
  match readResult with
  | .error _ => none
  | .ok stored => lookupKey (stored.getD []) providerId

/-- The `getSelectedProvider` function of `src/providerStorage.ts`: on a failed
storage read it logs and returns `undefined`; on success it returns the stored
selection, which may itself be absent. -/
def getSelectedProvider (readResult : Except String (Option ProviderId)) :
    Option ProviderId :=
  match readResult with
  | .error _ => none
  | .ok stored => stored

/-! Operation A and its message handler.  `src/background.ts` imports
`generateClarifyingQuestions` from `./refinePrompt`, a module that is not among
the available source files; it is modelled from the spec below.  The handler
`handleGenerateClarifyingQuestions` itself is embedded from `src/background.ts`. -/

/-- The structured output parsed from the model's response: an importance
score, the named gaps, and the proposed questions (possibly more than three). -/
structure ParsedModelOutput where
  importanceScore : Nat
  missing : List String
  questions : List String
deriving DecidableEq, Repr

/-- The ClarificationResult returned by Operation A. -/
structure ClarificationResult where
  importanceScore : Nat
  missing : List String
  questions : List String
deriving DecidableEq, Repr

/-- Errors Operation A can fail with, per the spec's taxonomy. -/
inductive RefineError
  | invalidInput
  | noProviderConfigured
deriving DecidableEq, Repr

/-- The user-visible message of an Operation A error. -/
def RefineError.message : RefineError → String
  | .invalidInput => "Prompt text cannot be empty"
  | .noProviderConfigured => "No provider configured"

/-- Modelled from the spec: `generateClarifyingQuestions` lives in the missing
module `./refinePrompt` imported by `src/background.ts`.  Per the spec it
validates that the prompt text is non-empty (`InvalidInputError` otherwise),
resolves the active provider and credential (`NoProviderConfiguredError` when
either is missing), asks the model for an importance score, missing pieces and
questions, and truncates the proposed questions deterministically to at most 3,
preserving their order. -/
def generateClarifyingQuestions (promptText contextText labelHint : String)
    (providerKey : Option (ProviderId × String)) (modelOutput : ParsedModelOutput) :
    Except RefineError ClarificationResult :=
  if jsTrim promptText = "" then
    .error .invalidInput
  else
    match providerKey with
    | none => .error .noProviderConfigured
    | some _ =>
        .ok ⟨modelOutput.importanceScore, modelOutput.missing, modelOutput.questions.take 3⟩

/-- The response record sent back to the UI (`src/background.ts`, interface
Response), restricted to the fields the embedded handlers populate. -/
structure BgResponse where
  success : Bool
  error : Option String
  questions : Option (List String)
  missing : Option (List String)
  importanceScore : Option Nat
  refinedText : Option String
deriving DecidableEq, Repr

/-- The `handleGenerateClarifyingQuestions` handler of `src/background.ts`:
rejects an empty prompt, defaults the optional label context and label to the
empty string, invokes Operation A, and returns its questions, missing list and
importance score on success, or the thrown error's message on failure. -/
def handleGenerateClarifyingQuestions (promptContent : String)
    (labelContext label : Option String) (providerKey : Option (ProviderId × String))
    (modelOutput : ParsedModelOutput) : BgResponse :=
  if jsTrim promptContent = "" then
    ⟨false, some "Prompt content is required", none, none, none, none⟩
  else
    match generateClarifyingQuestions promptContent (labelContext.getD "")
        (label.getD "") providerKey modelOutput with
    | .ok result =>
        ⟨true, none, some result.questions, some result.missing,
         some result.importanceScore, none⟩
    | .error e => ⟨false, some e.message, none, none, none, none⟩

/-! Conversation driver (`src/ClarificationChat.tsx`).  Conversation messages
carry only the user and assistant roles. -/

/-- Conversation roles (`src/ClarificationChat.tsx`, interface
ConversationMessage). -/
inductive MsgRole
  | user
  | assistant
deriving DecidableEq, Repr

instance : BEq MsgRole := ⟨fun a b => decide (a = b)⟩

instance : LawfulBEq MsgRole where
  eq_of_beq h := by simpa [BEq.beq] using h
  rfl := by intro a; simp [BEq.beq]

/-- One conversation turn of a clarification session. -/
structure ConversationMessage where
  role : MsgRole
  content : String
deriving DecidableEq, Repr

/-- Outcome of the mount-time `generateQuestions` flow of the conversation
driver: straight to completion, awaiting the first answer, or failed (with
`closed = true` when the chat is also cancelled). -/
inductive InitOutcome
  | completed (refinedText : String)
  | awaitingAnswer (conversation : List ConversationMessage)
  | failed (message : String) (closed : Bool)
deriving DecidableEq, Repr

/-- The `generateQuestions` effect run on mount by `src/ClarificationChat.tsx`:
on a successful questions response, zero questions triggers an immediate
`generateFinalRefinedPrompt` call with an empty conversation history and, when
that response succeeds with truthy refined text, completes with it; a non-empty
question list seeds the conversation with the first question as an assistant
turn; failures surface the error and close the chat. -/
def initializeChat (questionsResponse : BgResponse)
    (refineCall : List ConversationMessage → BgResponse) : InitOutcome :=
  match questionsResponse.success, questionsResponse.questions with
  | true, some generatedQuestions =>
      if generatedQuestions.length = 0 then
        let refineResponse := refineCall []
        if refineResponse.success && strTruthy refineResponse.refinedText then
          .completed (refineResponse.refinedText.getD "")
        else
          .failed
            (refineResponse.error.getD
              "Failed to generate refined prompt. Please check your API key and try again.")
            true
      else
        .awaitingAnswer [⟨MsgRole.assistant, generatedQuestions.getD 0 ""⟩]
  | _, _ => .failed (questionsResponse.error.getD "Failed to generate questions") true

/-! Stored data model (storage module, `src/unnamed/part_002`). -/

/-- A saved prompt: unique name, current content, referenced label names, and
the optional pre-refinement original content. -/
structure Prompt where
  name : String
  content : String
  labels : List String
  originalContent : Option String
deriving DecidableEq, Repr

/-- A label: unique name, free-text context, presentation-only icon and color. -/
structure Label where
  name : String
  context : String
  icon : Option String
  color : Option String
deriving DecidableEq, Repr

/-- The chrome-storage snapshot holding all prompts and labels. -/
structure StorageData where
  prompts : List Prompt
  labels : List Label
deriving DecidableEq, Repr

/-! Editor archival behavior (`src/PromptEditor.tsx`).  The component state
relevant to `originalContent` is the current content and the
`originalContentBeforeRefinement` state variable. -/

/-- The editor state that participates in archival: the content field and the
`originalContentBeforeRefinement` state variable of `src/PromptEditor.tsx`. -/
structure EditorState where
  content : String
  originalContentBeforeRefinement : Option String
deriving DecidableEq, Repr

/-- The `onComplete` callback of the clarification chat in
`src/PromptEditor.tsx`: a refinement that actually changed the trimmed text
archives the pre-refinement content, but only when no truthy archive exists
yet; the content is then replaced by the refined text. -/
def editorOnComplete (s : EditorState) (refined : String) : EditorState :=
  let wasRefined := !(jsTrim refined == jsTrim s.content)
  ⟨refined,
   if wasRefined && !(strTruthy s.originalContentBeforeRefinement) then some s.content
   else s.originalContentBeforeRefinement⟩

/-- The `savedPrompt` object built by the Save button of `src/PromptEditor.tsx`:
the `originalContent` field is included exactly when the archived value is
truthy. -/
def buildSavedPrompt (name : String) (s : EditorState) (selectedLabel : Option String) :
    Prompt :=
  ⟨name, s.content,
   (match selectedLabel with
    | some l => [l]
    | none => []),
   if strTruthy s.originalContentBeforeRefinement then s.originalContentBeforeRefinement
   else none⟩

/-! The question/answer loop of `src/ClarificationChat.tsx`, driven by the two
user actions `handleSend` and `handleAnswerLater`. -/

/-- A user action while a question is displayed: submit an answer or defer
("Answer later"). -/
inductive ChatAction
  | send (currentAnswer : String)
  | answerLater
deriving DecidableEq, Repr

/-- The driver state while walking the questions: the conversation so far and
the `currentQuestionIndex` state variable. -/
structure ChatState where
  conversation : List ConversationMessage
  currentQuestionIndex : Nat
deriving DecidableEq, Repr

/-- Result of one user action: either a new driver state, or the transcript
handed to `generateFinalRefinedPrompt` (Operation B). -/
inductive StepResult
  | proceed (s : ChatState)
  | synthesize (transcript : List ConversationMessage)
deriving DecidableEq, Repr

/-- The driver state after a non-empty question list is generated: the first
question seeded as an assistant turn, index 0. -/
def initChatState (questions : List String) : ChatState :=
  ⟨[⟨MsgRole.assistant, questions.getD 0 ""⟩], 0⟩

/-- One user action processed by `handleSend` / `handleAnswerLater` of
`src/ClarificationChat.tsx`: a blank answer is ignored; a submitted answer is
appended as a user turn; when questions remain, the next question is appended
as an assistant turn and the index advances, otherwise Operation B is invoked
with the accumulated conversation (a deferred last question contributes no
user turn). -/
def chatStep (questions : List String) (s : ChatState) (a : ChatAction) : StepResult :=
  match a with
  | .send currentAnswer =>
      if jsTrim currentAnswer = "" then .proceed s
      else
        let answer := jsTrim currentAnswer
        let updatedConv := s.conversation ++ [⟨MsgRole.user, answer⟩]
        if s.currentQuestionIndex < questions.length - 1 then
          .proceed
            ⟨updatedConv ++ [⟨MsgRole.assistant, questions.getD (s.currentQuestionIndex + 1) ""⟩],
             s.currentQuestionIndex + 1⟩
        else .synthesize updatedConv
  | .answerLater =>
      if s.currentQuestionIndex < questions.length - 1 then
        .proceed
          ⟨s.conversation ++ [⟨MsgRole.assistant, questions.getD (s.currentQuestionIndex + 1) ""⟩],
           s.currentQuestionIndex + 1⟩
      else .synthesize s.conversation

/-- A full run of the driver over a list of user actions: returns the
transcript passed to Operation B when synthesis is reached. -/
def runChat (questions : List String) (s : ChatState) (acts : List ChatAction) :
    Option (List ConversationMessage) :=
  match acts with
  | [] => none
  | a :: rest =>
      match chatStep questions s a with
      | .proceed s' => runChat questions s' rest
      | .synthesize t => some t

/-- The transcript contribution of one question under one user action: the
question as an assistant turn, followed by a user turn exactly when the
question was answered. -/
def turnsFor (question : String) (a : ChatAction) : List ConversationMessage :=
  match a with
  | .send currentAnswer =>
      [⟨MsgRole.assistant, question⟩, ⟨MsgRole.user, jsTrim currentAnswer⟩]
  | .answerLater => [⟨MsgRole.assistant, question⟩]

/-- The transcript a full run should produce: per question in order, its
assistant turn and its optional answer turn. -/
def expectedTranscript (questions : List String) (acts : List ChatAction) :
    List ConversationMessage :=
  (questions.zip acts).flatMap (fun p => turnsFor p.1 p.2)

/-! Label CRUD of the storage module (`src/unnamed/part_002`): `saveLabel`
(with optional rename) and `deleteLabel`, as pure transformations of the
storage snapshot. -/

/-- The create-or-update path of `saveLabel` when no rename is requested:
update the existing label in place or append a new one (with the defensive
duplicate check of the source). -/
def saveLabelUpsert (label : Label) (data : StorageData) : Except String StorageData :=
  match data.labels.findIdx? (fun l => l.name == label.name) with
  | some existingIndex => .ok ⟨data.prompts, data.labels.set existingIndex label⟩
  | none =>
      if (data.labels.find? (fun l => l.name == label.name)).isSome then
        .error ("Label with name \"" ++ label.name ++ "\" already exists")
      else .ok ⟨data.prompts, data.labels ++ [label]⟩

/-- The `saveLabel` function of the storage module: an empty name is rejected;
providing an `oldName` different from the new name is a rename, which requires
the old label to exist and the new name to be free, replaces the label entry,
and rewrites the old name to the new name inside every prompt's labels array;
otherwise the label is upserted. -/
def saveLabel (label : Label) (oldName : Option String) (data : StorageData) :
    Except String StorageData :=
  if jsTrim label.name = "" then .error "Label name cannot be empty"
  else
    match oldName with
    | some o =>
        if o ≠ label.name then
          match data.labels.findIdx? (fun l => l.name == o) with
          | none => .error ("Cannot rename label \"" ++ o ++ "\": label not found")
          | some oldLabelIndex =>
              if (data.labels.find?
                    (fun l => l.name == label.name && !(l.name == o))).isSome then
                .error ("Cannot rename label \"" ++ o ++ "\" to \"" ++ label.name
                  ++ "\": a label with that name already exists")
              else
                .ok ⟨data.prompts.map (fun prompt =>
                        ⟨prompt.name, prompt.content,
                         prompt.labels.map
                           (fun labelName => if labelName = o then label.name else labelName),
                         prompt.originalContent⟩),
                     data.labels.set oldLabelIndex label⟩
        else saveLabelUpsert label data
    | none => saveLabelUpsert label data

/-- The `deleteLabel` function of the storage module: remove the label entry
and strip the name from every referencing prompt's labels array, leaving
non-referencing prompts untouched and deleting no prompt. -/
def deleteLabel (name : String) (data : StorageData) : StorageData :=
  ⟨data.prompts.map (fun prompt =>
      if prompt.labels.contains name then
        ⟨prompt.name, prompt.content,
         prompt.labels.filter (fun labelName => !(labelName == name)),
         prompt.originalContent⟩
      else prompt),
   data.labels.filter (fun l => !(l.name == name))⟩

/-! Theorems: each claim is settled below against the definitions above;
helper lemmas precede the claim theorems that use them. -/

/-- C5: The Unified Chat Client normalizes the unified message list into each
provider's wire shape: the Anthropic-style provider receives no system role in
`messages`, the system content in a sibling top-level `system` string and an
always-present max-token cap; the Google-style provider receives `contents`
items of role/parts shape with assistant renamed to "model", the system turn in
`systemInstruction`, and the API key in the URL query string rather than in a
header. -/
theorem unified_client_wire_shapes (apiKey apiKey' baseUrl model : String)
    (messages : List ChatMessage) (temperature : Rat) :
    ((anthropicRequest apiKey baseUrl model messages temperature).messages.all
        (fun m => m.role == "assistant" || m.role == "user") = true)
    ∧ (anthropicRequest apiKey baseUrl model messages temperature).messages
        = (messages.filter (fun m => !(m.role == Role.system))).map
            (fun m => ⟨if m.role == Role.assistant then "assistant" else "user", m.content⟩)
    ∧ (anthropicRequest apiKey baseUrl model messages temperature).system
        = (messages.find? (fun m => m.role == Role.system)).map (fun m => m.content)
    ∧ (anthropicRequest apiKey baseUrl model messages temperature).max_tokens = 4096
    ∧ ((googleRequest apiKey baseUrl model messages temperature).contents.all
        (fun c => (c.role == "model" || c.role == "user") && c.parts.length == 1) = true)
    ∧ (googleRequest apiKey baseUrl model messages temperature).contents
        = (messages.filter (fun m => !(m.role == Role.system))).map
            (fun m => ⟨if m.role == Role.assistant then "model" else "user", [⟨m.content⟩]⟩)
    ∧ (googleRequest apiKey baseUrl model messages temperature).systemInstruction
        = (messages.find? (fun m => m.role == Role.system)).map (fun m => ⟨[⟨m.content⟩]⟩)
    ∧ (googleRequest apiKey baseUrl model messages temperature).url
        = baseUrl ++ "/" ++ model ++ ":generateContent?key=" ++ apiKey
    ∧ (googleRequest apiKey baseUrl model messages temperature).headers
        = [("Content-Type", "application/json")]
    ∧ (googleRequest apiKey baseUrl model messages temperature).headers
        = (googleRequest apiKey' baseUrl model messages temperature).headers := by
  refine ⟨?_, rfl, rfl, rfl, ?_, rfl, rfl, rfl, rfl, rfl⟩
  · simp only [anthropicRequest, List.all_eq_true]
    intro m hm
    rcases List.mem_map.mp hm with ⟨x, hx, hxm⟩
    rcases List.mem_filter.mp hx with ⟨_, hxs⟩
    cases hr : x.role <;> subst hxm <;> simp_all
  · simp only [googleRequest, List.all_eq_true]
    intro c hc
    rcases List.mem_map.mp hc with ⟨x, hx, hxc⟩
    rcases List.mem_filter.mp hx with ⟨_, hxs⟩
    cases hr : x.role <;> subst hxc <;> simp_all

/-- C7 counterexample: an HTTP 401 response does not produce a distinct auth
error.  The unified chat client throws the same plain `Error` class (runtime
name "Error") for a 401 as for a 500; the two failures differ only in the
message text, so no `ProviderAuthError` distinguishable from the generic
request error exists. -/
theorem auth_error_not_distinct_counterexample :
    openAIChatCompletion ⟨false, 401, "Unauthorized", ⟨none⟩⟩
      = Except.error (JsError.generic "OpenAI API error (401): Unauthorized")
    ∧ openAIChatCompletion ⟨false, 500, "Server error", ⟨none⟩⟩
      = Except.error (JsError.generic "OpenAI API error (500): Server error")
    ∧ JsError.jsName (JsError.generic "OpenAI API error (401): Unauthorized")
      = JsError.jsName (JsError.generic "OpenAI API error (500): Server error") :=
  ⟨rfl, rfl, rfl⟩

/-- C7 amended: when a provider responds with an HTTP 401/403-equivalent (or
any other non-success) status, the unified chat client fails with the same
plain generic `Error` used for every non-success response, whose message embeds
the provider name, the numeric status and the raw error body; no distinct
auth-specific error class exists, so the status inside the message is the only
way a caller can recognize an auth failure. -/
theorem auth_failures_use_generic_error
    (r1 : HttpResponse OpenAIData) (r2 : HttpResponse AnthropicData)
    (h1 : r1.ok = false) (h2 : r2.ok = false) :
    openAIChatCompletion r1
      = Except.error (JsError.generic
          ("OpenAI API error (" ++ toString r1.status ++ "): " ++ r1.errText))
    ∧ anthropicChatCompletion r2
      = Except.error (JsError.generic
          ("Anthropic API error (" ++ toString r2.status ++ "): " ++ r2.errText))
    ∧ (∀ e, openAIChatCompletion r1 = Except.error e → JsError.jsName e = "Error")
    ∧ (∀ e, anthropicChatCompletion r2 = Except.error e → JsError.jsName e = "Error") := by
  have ho : openAIChatCompletion r1
      = Except.error (JsError.generic
          ("OpenAI API error (" ++ toString r1.status ++ "): " ++ r1.errText)) := by
    unfold openAIChatCompletion
    simp [h1]
  have ha : anthropicChatCompletion r2
      = Except.error (JsError.generic
          ("Anthropic API error (" ++ toString r2.status ++ "): " ++ r2.errText)) := by
    unfold anthropicChatCompletion
    simp [h2]
  refine ⟨ho, ha, ?_, ?_⟩
  · intro e he
    rw [ho] at he
    cases he
    rfl
  · intro e he
    rw [ha] at he
    cases he
    rfl

/-- C7 witness: the amended statement evaluated at a concrete 401 response and
a concrete 403 response. -/
theorem auth_failures_use_generic_error_witness :
    openAIChatCompletion ⟨false, 401, "Unauthorized", ⟨none⟩⟩
      = Except.error (JsError.generic
          ("OpenAI API error (" ++ toString 401 ++ "): " ++ "Unauthorized"))
    ∧ anthropicChatCompletion ⟨false, 403, "Forbidden", ⟨none⟩⟩
      = Except.error (JsError.generic
          ("Anthropic API error (" ++ toString 403 ++ "): " ++ "Forbidden"))
    ∧ (∀ e, openAIChatCompletion ⟨false, 401, "Unauthorized", ⟨none⟩⟩ = Except.error e →
        JsError.jsName e = "Error")
    ∧ (∀ e, anthropicChatCompletion ⟨false, 403, "Forbidden", ⟨none⟩⟩ = Except.error e →
        JsError.jsName e = "Error") :=
  auth_failures_use_generic_error ⟨false, 401, "Unauthorized", ⟨none⟩⟩
    ⟨false, 403, "Forbidden", ⟨none⟩⟩ rfl rfl

/-- C8: for every provider, a success response from which no usable trimmed
text can be extracted fails with the "returned no content" error rather than
returning an empty string; consequently every successful result of the unified
chat client has non-empty content. -/
theorem successful_completion_content_nonempty
    (r1 : HttpResponse OpenAIData) (r2 : HttpResponse AnthropicData) (r3 : HttpResponse GoogleData)
    (c1 c2 c3 : ChatCompletionResponse)
    (r4 : HttpResponse OpenAIData) (r5 : HttpResponse AnthropicData) (r6 : HttpResponse GoogleData)
    (h1 : openAIChatCompletion r1 = Except.ok c1)
    (h2 : anthropicChatCompletion r2 = Except.ok c2)
    (h3 : googleChatCompletion r3 = Except.ok c3)
    (h4 : r4.ok = true) (h4e : strTruthy (extractOpenAI r4.data) = false)
    (h5 : r5.ok = true) (h5e : strTruthy (extractAnthropic r5.data) = false)
    (h6 : r6.ok = true) (h6e : strTruthy (extractGoogle r6.data) = false) :
    c1.content ≠ "" ∧ c2.content ≠ "" ∧ c3.content ≠ ""
    ∧ openAIChatCompletion r4 = Except.error (JsError.generic "OpenAI API returned no content")
    ∧ anthropicChatCompletion r5
        = Except.error (JsError.generic "Anthropic API returned no content")
    ∧ googleChatCompletion r6 = Except.error (JsError.generic "Google API returned no content") := by
  refine ⟨?_, ?_, ?_, ?_, ?_, ?_⟩
  · unfold openAIChatCompletion at h1
    split at h1
    · cases h1
    · split at h1
      · split at h1
        · cases h1
        · rename_i hce
          cases h1
          exact hce
      · cases h1
  · unfold anthropicChatCompletion at h2
    split at h2
    · cases h2
    · split at h2
      · split at h2
        · cases h2
        · rename_i hce
          cases h2
          exact hce
      · cases h2
  · unfold googleChatCompletion at h3
    split at h3
    · cases h3
    · split at h3
      · split at h3
        · cases h3
        · rename_i hce
          cases h3
          exact hce
      · cases h3
  · unfold openAIChatCompletion
    cases hx : extractOpenAI r4.data with
    | none => simp [h4, hx]
    | some s =>
      rw [hx] at h4e
      simp only [strTruthy, Bool.not_eq_false', beq_iff_eq] at h4e
      simp [h4, hx, h4e]
  · unfold anthropicChatCompletion
    cases hx : extractAnthropic r5.data with
    | none => simp [h5, hx]
    | some s =>
      rw [hx] at h5e
      simp only [strTruthy, Bool.not_eq_false', beq_iff_eq] at h5e
      simp [h5, hx, h5e]
  · unfold googleChatCompletion
    cases hx : extractGoogle r6.data with
    | none => simp [h6, hx]
    | some s =>
      rw [hx] at h6e
      simp only [strTruthy, Bool.not_eq_false', beq_iff_eq] at h6e
      simp [h6, hx, h6e]

/-- C8 witness: the theorem evaluated at a concrete success response whose
extracted text is non-empty for each provider, and concrete success responses
with no extractable text. -/
theorem successful_completion_content_nonempty_witness :
    (ChatCompletionResponse.mk "hello").content ≠ ""
    ∧ (ChatCompletionResponse.mk "hi").content ≠ ""
    ∧ (ChatCompletionResponse.mk "hey").content ≠ ""
    ∧ openAIChatCompletion ⟨true, 200, "", ⟨none⟩⟩
        = Except.error (JsError.generic "OpenAI API returned no content")
    ∧ anthropicChatCompletion ⟨true, 200, "", ⟨none⟩⟩
        = Except.error (JsError.generic "Anthropic API returned no content")
    ∧ googleChatCompletion ⟨true, 200, "", ⟨none⟩⟩
        = Except.error (JsError.generic "Google API returned no content") :=
  successful_completion_content_nonempty
    ⟨true, 200, "", ⟨some [⟨some ⟨some "  hello  "⟩⟩]⟩⟩
    ⟨true, 200, "", ⟨some [⟨some "hi"⟩]⟩⟩
    ⟨true, 200, "", ⟨some [⟨some ⟨some [⟨some "hey"⟩]⟩⟩]⟩⟩
    ⟨"hello"⟩ ⟨"hi"⟩ ⟨"hey"⟩
    ⟨true, 200, "", ⟨none⟩⟩ ⟨true, 200, "", ⟨none⟩⟩ ⟨true, 200, "", ⟨none⟩⟩
    rfl rfl rfl rfl rfl rfl rfl rfl rfl

/-- C9: the diagnostic log output of `chatCompletion` never depends on the API
key: two invocations that differ only in the apiKey argument emit identical
request records, response previews and error records (and produce the same
result), even though the wire requests they send embed the differing keys. -/
theorem chat_completion_logs_key_independent (provider : ProviderConfig)
    (apiKey₁ apiKey₂ : String) (request : ChatCompletionRequest) (world : FetchWorld) :
    (chatCompletion provider apiKey₁ request world).2.2
      = (chatCompletion provider apiKey₂ request world).2.2
    ∧ (chatCompletion provider apiKey₁ request world).2.1
      = (chatCompletion provider apiKey₂ request world).2.1 := by
  unfold chatCompletion
  rcases provider with ⟨pid, pname, baseUrl, defModel, models, keyHeader⟩
  cases pid <;> dsimp only
  · cases openAIChatCompletion world.openai <;> exact ⟨rfl, rfl⟩
  · cases anthropicChatCompletion world.anthropic <;> exact ⟨rfl, rfl⟩
  · cases googleChatCompletion world.google <;> exact ⟨rfl, rfl⟩

/-- C10: the credential read operations never reject: for every provider id a
failed storage read makes `getProviderApiKey` return `undefined` rather than
propagating the error, `getSelectedProvider` likewise returns `undefined` on
any storage failure, and in both cases the failure result is exactly the
result an empty (not-configured) store produces, so callers cannot tell a
storage-layer read error apart from "not configured". -/
theorem credential_reads_never_reject (providerId : ProviderId) (e e' : String) :
    getProviderApiKey providerId (Except.error e) = none
    ∧ getSelectedProvider (Except.error e') = none
    ∧ getProviderApiKey providerId (Except.error e)
        = getProviderApiKey providerId (Except.ok none)
    ∧ getSelectedProvider (Except.error e')
        = getSelectedProvider (Except.ok none) :=
  ⟨rfl, rfl, rfl, rfl⟩

/-- C1: for every non-empty prompt text, Operation A (through its message
handler) returns between 0 and 3 questions inclusive, never more; when the
model proposes more than 3 the returned list is the deterministic
order-preserving truncation (a prefix) of the proposed list. -/
theorem clarifying_questions_at_most_three (promptContent : String)
    (labelContext label : Option String) (providerKey : Option (ProviderId × String))
    (modelOutput : ParsedModelOutput) (qs : List String)
    (h : (handleGenerateClarifyingQuestions promptContent labelContext label
            providerKey modelOutput).questions = some qs) :
    qs.length ≤ 3
    ∧ qs = modelOutput.questions.take 3
    ∧ ∃ rest, modelOutput.questions = qs ++ rest := by
  unfold handleGenerateClarifyingQuestions at h
  split at h
  · cases h
  · split at h
    · rename_i result heq
      cases h
      unfold generateClarifyingQuestions at heq
      split at heq
      · cases heq
      · split at heq
        · cases heq
        · cases heq
          refine ⟨?_, rfl, modelOutput.questions.drop 3, ?_⟩
          · simp
          · exact (List.take_append_drop 3 modelOutput.questions).symm
    · cases h

/-- C1 witness: the theorem evaluated on a concrete prompt where the model
proposes four questions; the handler returns exactly the first three. -/
theorem clarifying_questions_at_most_three_witness :
    (["q1", "q2", "q3"] : List String).length ≤ 3
    ∧ (["q1", "q2", "q3"] : List String) = (["q1", "q2", "q3", "q4"] : List String).take 3
    ∧ ∃ rest, (["q1", "q2", "q3", "q4"] : List String) = ["q1", "q2", "q3"] ++ rest :=
  clarifying_questions_at_most_three "Write a blog post" none none
    (some (ProviderId.openai, "sk-test")) ⟨3, ["topic"], ["q1", "q2", "q3", "q4"]⟩
    ["q1", "q2", "q3"] rfl

/-- C3: when Operation A returns zero questions, the conversation driver
immediately invokes Operation B with an empty transcript (the outcome depends
on the refine call only through its value at the empty history) and, when that
call succeeds with non-empty text, transitions straight to Completed with the
refined text, with no user interaction. -/
theorem zero_questions_fast_path (questionsResponse : BgResponse)
    (refineCall refineCall' : List ConversationMessage → BgResponse) (t : String)
    (hs : questionsResponse.success = true)
    (hq : questionsResponse.questions = some [])
    (hrs : (refineCall []).success = true)
    (hrt : (refineCall []).refinedText = some t)
    (ht : t ≠ "")
    (hagree : refineCall' [] = refineCall []) :
    initializeChat questionsResponse refineCall = InitOutcome.completed t
    ∧ initializeChat questionsResponse refineCall' = InitOutcome.completed t := by
  have h1 : initializeChat questionsResponse refineCall = InitOutcome.completed t := by
    unfold initializeChat
    rw [hs, hq]
    simp [hrs, hrt, strTruthy, ht]
  have h2 : initializeChat questionsResponse refineCall' = InitOutcome.completed t := by
    unfold initializeChat
    rw [hs, hq]
    simp only [List.length_nil, if_true]
    rw [hagree]
    simp [hrs, hrt, strTruthy, ht]
  exact ⟨h1, h2⟩

/-- C3 witness: the fast path evaluated at a concrete zero-question response
and a concrete successful refine response. -/
theorem zero_questions_fast_path_witness :
    initializeChat ⟨true, none, some [], none, none, none⟩
        (fun _ => ⟨true, none, none, none, none, some "refined"⟩)
      = InitOutcome.completed "refined"
    ∧ initializeChat ⟨true, none, some [], none, none, none⟩
        (fun _ => ⟨true, none, none, none, none, some "refined"⟩)
      = InitOutcome.completed "refined" :=
  zero_questions_fast_path ⟨true, none, some [], none, none, none⟩
    (fun _ => ⟨true, none, none, none, none, some "refined"⟩)
    (fun _ => ⟨true, none, none, none, none, some "refined"⟩)
    "refined" rfl rfl rfl rfl (by decide) rfl

/-- C4: once `originalContentBeforeRefinement` holds a non-empty value, no
sequence of later refinement completions changes it, and saving writes exactly
that value into the prompt's `originalContent`; conversely, when no truthy
archive exists, a refinement that changes the trimmed text archives the
pre-refinement content. -/
theorem original_content_never_overwritten (s : EditorState) (refinements : List String)
    (name : String) (selectedLabel : Option String)
    (h : strTruthy s.originalContentBeforeRefinement = true) :
    (List.foldl editorOnComplete s refinements).originalContentBeforeRefinement
      = s.originalContentBeforeRefinement
    ∧ (buildSavedPrompt name (List.foldl editorOnComplete s refinements)
        selectedLabel).originalContent = s.originalContentBeforeRefinement
    ∧ (∀ s₀ : EditorState, ∀ refined : String,
        strTruthy s₀.originalContentBeforeRefinement = false →
        jsTrim refined ≠ jsTrim s₀.content →
        (editorOnComplete s₀ refined).originalContentBeforeRefinement = some s₀.content) := by
  have hstep : ∀ s' : EditorState, ∀ r : String,
      strTruthy s'.originalContentBeforeRefinement = true →
      (editorOnComplete s' r).originalContentBeforeRefinement
        = s'.originalContentBeforeRefinement := by
    intro s' r h'
    unfold editorOnComplete
    simp [h']
  have hfold : ∀ rs : List String, ∀ s' : EditorState,
      strTruthy s'.originalContentBeforeRefinement = true →
      (List.foldl editorOnComplete s' rs).originalContentBeforeRefinement
        = s'.originalContentBeforeRefinement := by
    intro rs
    induction rs with
    | nil => intro s' _; rfl
    | cons r rest ih =>
        intro s' h'
        have hkeep := hstep s' r h'
        have : strTruthy (editorOnComplete s' r).originalContentBeforeRefinement = true := by
          rw [hkeep]; exact h'
        calc (List.foldl editorOnComplete s' (r :: rest)).originalContentBeforeRefinement
            = (List.foldl editorOnComplete (editorOnComplete s' r) rest).originalContentBeforeRefinement := rfl
          _ = (editorOnComplete s' r).originalContentBeforeRefinement := ih _ this
          _ = s'.originalContentBeforeRefinement := hkeep
  have hf := hfold refinements s h
  refine ⟨hf, ?_, ?_⟩
  · unfold buildSavedPrompt
    rw [hf] at *
    simp [hf, h]
  · intro s₀ refined h0 hch
    unfold editorOnComplete
    have : (jsTrim refined == jsTrim s₀.content) = false := by
      simp [hch]
    simp [this, h0]

/-- C4 witness: a state whose archive is already set to a non-empty value is
unchanged by two further refinements, and the saved prompt carries that
archive. -/
theorem original_content_never_overwritten_witness :
    (List.foldl editorOnComplete ⟨"current", some "the original"⟩
        ["better", "best"]).originalContentBeforeRefinement = some "the original"
    ∧ (buildSavedPrompt "p" (List.foldl editorOnComplete ⟨"current", some "the original"⟩
        ["better", "best"]) (some "work")).originalContent = some "the original"
    ∧ (∀ s₀ : EditorState, ∀ refined : String,
        strTruthy s₀.originalContentBeforeRefinement = false →
        jsTrim refined ≠ jsTrim s₀.content →
        (editorOnComplete s₀ refined).originalContentBeforeRefinement = some s₀.content) :=
  original_content_never_overwritten ⟨"current", some "the original"⟩
    ["better", "best"] "p" (some "work") rfl

/-- Submitting a non-blank answer with questions remaining appends the user
turn and the next question and advances the index. -/
theorem chatStep_send_mid (questions : List String) (s : ChatState) (ans : String)
    (hans : ¬ jsTrim ans = "") (hlt : s.currentQuestionIndex < questions.length - 1) :
    chatStep questions s (ChatAction.send ans)
      = StepResult.proceed
          ⟨(s.conversation ++ [⟨MsgRole.user, jsTrim ans⟩])
            ++ [⟨MsgRole.assistant, questions.getD (s.currentQuestionIndex + 1) ""⟩],
           s.currentQuestionIndex + 1⟩ := by
  simp only [chatStep]
  rw [if_neg hans, if_pos hlt]

/-- Submitting a non-blank answer on the last question synthesizes with the
answer appended. -/
theorem chatStep_send_last (questions : List String) (s : ChatState) (ans : String)
    (hans : ¬ jsTrim ans = "") (hnlt : ¬ s.currentQuestionIndex < questions.length - 1) :
    chatStep questions s (ChatAction.send ans)
      = StepResult.synthesize (s.conversation ++ [⟨MsgRole.user, jsTrim ans⟩]) := by
  simp only [chatStep]
  rw [if_neg hans, if_neg hnlt]

/-- Deferring with questions remaining appends the next question and advances
the index. -/
theorem chatStep_later_mid (questions : List String) (s : ChatState)
    (hlt : s.currentQuestionIndex < questions.length - 1) :
    chatStep questions s ChatAction.answerLater
      = StepResult.proceed
          ⟨s.conversation
            ++ [⟨MsgRole.assistant, questions.getD (s.currentQuestionIndex + 1) ""⟩],
           s.currentQuestionIndex + 1⟩ := by
  simp only [chatStep]
  rw [if_pos hlt]

/-- Deferring the last question synthesizes with the conversation unchanged. -/
theorem chatStep_later_last (questions : List String) (s : ChatState)
    (hnlt : ¬ s.currentQuestionIndex < questions.length - 1) :
    chatStep questions s ChatAction.answerLater
      = StepResult.synthesize s.conversation := by
  simp only [chatStep]
  rw [if_neg hnlt]

/-- Dropping `i` elements of a list with `i` in bounds exposes the `i`-th
element. -/
theorem drop_eq_getD_cons (l : List String) (i : Nat) (h : i < l.length) :
    l.drop i = l.getD i "" :: l.drop (i + 1) := by
  induction l generalizing i with
  | nil => simp at h
  | cons x xs ih =>
      cases i with
      | zero => rfl
      | succ n =>
          have h' : n < xs.length := by simpa using h
          exact ih n h'

/-- Invariant of the driver loop: from a state displaying question `i` on top
of an arbitrary transcript prefix, running the remaining actions (one per
remaining question, all submitted answers non-blank) reaches synthesis with the
prefix extended by one assistant turn per remaining question in order, each
followed by the submitted answer when one was given. -/
theorem runChat_general (questions : List String) (acts : List ChatAction) :
    ∀ (i : Nat) (pre : List ConversationMessage),
      acts ≠ [] →
      i + acts.length = questions.length →
      (∀ ans, ChatAction.send ans ∈ acts → jsTrim ans ≠ "") →
      runChat questions ⟨pre ++ [⟨MsgRole.assistant, questions.getD i ""⟩], i⟩ acts
        = some (pre ++ ((questions.drop i).zip acts).flatMap (fun p => turnsFor p.1 p.2)) := by
  induction acts with
  | nil => intro i pre hne _ _; exact absurd rfl hne
  | cons a rest ih =>
      intro i pre _ hlen hacts
      simp only [List.length_cons] at hlen
      have hi : i < questions.length := by omega
      have hdrop := drop_eq_getD_cons questions i hi
      by_cases hrest : rest = []
      · subst hrest
        simp only [List.length_nil] at hlen
        have hlast : i + 1 = questions.length := by omega
        have hnotlt : ¬ (i < questions.length - 1) := by omega
        have hdropnil : questions.drop (i + 1) = [] := by
          rw [hlast]; exact List.drop_length questions
        cases a with
        | send ans =>
            have hans : jsTrim ans ≠ "" := hacts ans (by simp)
            unfold runChat
            rw [chatStep_send_last questions _ ans hans hnotlt, hdrop, hdropnil]
            simp [turnsFor]
        | answerLater =>
            unfold runChat
            rw [chatStep_later_last questions _ hnotlt, hdrop, hdropnil]
            simp [turnsFor]
      · have hpos : 0 < rest.length := List.length_pos.mpr hrest
        have hlt : i < questions.length - 1 := by omega
        cases a with
        | send ans =>
            have hans : jsTrim ans ≠ "" := hacts ans (by simp)
            unfold runChat
            rw [chatStep_send_mid questions _ ans hans hlt]
            dsimp only
            have hconv : ((pre ++ [⟨MsgRole.assistant, questions.getD i ""⟩])
                  ++ [⟨MsgRole.user, jsTrim ans⟩])
                = pre ++ turnsFor (questions.getD i "") (ChatAction.send ans) := by
              simp [turnsFor]
            rw [hconv]
            rw [ih (i + 1) (pre ++ turnsFor (questions.getD i "") (ChatAction.send ans))
                hrest (by omega) (fun ans' hmem => hacts ans' (by simp [hmem]))]
            rw [hdrop]
            simp [turnsFor]
        | answerLater =>
            unfold runChat
            rw [chatStep_later_mid questions _ hlt]
            dsimp only
            have hconv : (pre ++ [⟨MsgRole.assistant, questions.getD i ""⟩])
                = pre ++ turnsFor (questions.getD i "") ChatAction.answerLater := by
              simp [turnsFor]
            rw [hconv]
            rw [ih (i + 1) (pre ++ turnsFor (questions.getD i "") ChatAction.answerLater)
                hrest (by omega) (fun ans' hmem => hacts ans' (by simp [hmem]))]
            rw [hdrop]
            simp [turnsFor]

/-- Filtering the expected transcript down to assistant turns recovers exactly
the question list, in order. -/
theorem filter_assistant_expected (questions : List String) :
    ∀ acts : List ChatAction, acts.length = questions.length →
      (expectedTranscript questions acts).filter (fun m => m.role == MsgRole.assistant)
        = questions.map (fun q => ⟨MsgRole.assistant, q⟩) := by
  induction questions with
  | nil => intro acts _; rfl
  | cons q qs ih =>
      intro acts hlen
      cases acts with
      | nil => simp at hlen
      | cons a rest =>
          simp only [List.length_cons] at hlen
          have hlen' : rest.length = qs.length := by omega
          cases a with
          | send ans =>
              have hexp : expectedTranscript (q :: qs) (ChatAction.send ans :: rest)
                  = ⟨MsgRole.assistant, q⟩ :: ⟨MsgRole.user, jsTrim ans⟩
                      :: expectedTranscript qs rest := by
                simp [expectedTranscript, turnsFor]
              rw [hexp]
              simp [ih rest hlen']
          | answerLater =>
              have hexp : expectedTranscript (q :: qs) (ChatAction.answerLater :: rest)
                  = ⟨MsgRole.assistant, q⟩ :: expectedTranscript qs rest := by
                simp [expectedTranscript, turnsFor]
              rw [hexp]
              simp [ih rest hlen']

/-- C2: a full run of the conversation driver over a non-empty question list
(one user action per question, submitted answers non-blank) always reaches
Operation B, and the transcript it passes is exactly one assistant turn per
question in question order, each followed by at most one user turn — none when
that question was deferred; in particular deferring every question still ends
with Operation B being invoked. -/
theorem transcript_one_assistant_turn_per_question (questions : List String)
    (acts : List ChatAction)
    (hq : questions ≠ [])
    (hlen : acts.length = questions.length)
    (hacts : ∀ ans, ChatAction.send ans ∈ acts → jsTrim ans ≠ "") :
    runChat questions (initChatState questions) acts
      = some (expectedTranscript questions acts)
    ∧ (expectedTranscript questions acts).filter (fun m => m.role == MsgRole.assistant)
        = questions.map (fun q => ⟨MsgRole.assistant, q⟩) := by
  constructor
  · have hne : acts ≠ [] := by
      intro hcontra
      subst hcontra
      exact hq (List.length_eq_zero.mp hlen.symm)
    have h := runChat_general questions acts 0 [] hne (by simpa using hlen) hacts
    simpa [initChatState, expectedTranscript] using h
  · exact filter_assistant_expected questions acts hlen

/-- C2 witness: a two-question session in which the user defers both questions
still reaches Operation B, with both questions present as assistant turns and
no user turns. -/
theorem transcript_one_assistant_turn_per_question_witness :
    runChat ["q1", "q2"] (initChatState ["q1", "q2"])
        [ChatAction.answerLater, ChatAction.answerLater]
      = some (expectedTranscript ["q1", "q2"] [ChatAction.answerLater, ChatAction.answerLater])
    ∧ (expectedTranscript ["q1", "q2"]
          [ChatAction.answerLater, ChatAction.answerLater]).filter
          (fun m => m.role == MsgRole.assistant)
        = (["q1", "q2"] : List String).map (fun q => ⟨MsgRole.assistant, q⟩) :=
  transcript_one_assistant_turn_per_question ["q1", "q2"]
    [ChatAction.answerLater, ChatAction.answerLater]
    (by simp) rfl (fun ans h => by simp at h)

/-- Filtering out an element a list does not contain leaves the list
unchanged. -/
theorem filter_ne_of_not_contains (l : List String) (nm : String)
    (h : l.contains nm = false) : l.filter (fun x => !(x == nm)) = l := by
  induction l with
  | nil => rfl
  | cons x xs ih =>
      simp only [List.contains_cons, Bool.or_eq_false_iff, beq_eq_false_iff_ne] at h
      rw [List.filter_cons_of_pos, ih (by simpa using h.2)]
      simp
      exact fun hx => h.1 hx.symm

/-- C6: renaming a label rewrites the old name to the new name inside every
stored prompt's labels array — leaving prompts that do not reference the old
name entirely unchanged — and deleting a label removes exactly that name from
every referencing prompt's labels array while preserving the number of stored
prompts (no prompt is deleted). -/
theorem label_rename_delete_consistency
    (label : Label) (o : String) (d d' : StorageData) (i : Nat) (p : Prompt)
    (nm : String) (d2 : StorageData) (j : Nat) (q : Prompt)
    (hrename : saveLabel label (some o) d = Except.ok d')
    (ho : o ≠ label.name)
    (hp : d.prompts[i]? = some p)
    (hq2 : d2.prompts[j]? = some q) :
    d'.prompts.length = d.prompts.length
    ∧ d'.prompts[i]? = some ⟨p.name, p.content,
        p.labels.map (fun labelName => if labelName = o then label.name else labelName),
        p.originalContent⟩
    ∧ (o ∉ p.labels → d'.prompts[i]? = some p)
    ∧ (deleteLabel nm d2).prompts.length = d2.prompts.length
    ∧ (deleteLabel nm d2).prompts[j]? = some ⟨q.name, q.content,
        q.labels.filter (fun labelName => !(labelName == nm)), q.originalContent⟩ := by
  unfold saveLabel at hrename
  split at hrename
  · cases hrename
  · dsimp only at hrename
    rw [if_pos ho] at hrename
    split at hrename
    · cases hrename
    · split at hrename
      · cases hrename
      · cases hrename
        have hmap : (d.prompts.map (fun prompt =>
            (⟨prompt.name, prompt.content,
              prompt.labels.map
                (fun labelName => if labelName = o then label.name else labelName),
              prompt.originalContent⟩ : Prompt)))[i]?
            = some ⟨p.name, p.content,
                p.labels.map (fun labelName => if labelName = o then label.name else labelName),
                p.originalContent⟩ := by
          rw [List.getElem?_map, hp]
          rfl
        refine ⟨by simp, hmap, ?_, by simp [deleteLabel], ?_⟩
        · intro hmem
          have hid : p.labels.map
              (fun labelName => if labelName = o then label.name else labelName)
              = p.labels := by
            conv_rhs => rw [← List.map_id p.labels]
            apply List.map_congr_left
            intro x hx
            have hxo : ¬ x = o := fun heq => hmem (heq ▸ hx)
            simp [hxo]
          rw [hmap, hid]
        · have hdel : (deleteLabel nm d2).prompts[j]?
              = some (if q.labels.contains nm then
                  ⟨q.name, q.content,
                   q.labels.filter (fun labelName => !(labelName == nm)),
                   q.originalContent⟩
                else q) := by
            unfold deleteLabel
            rw [List.getElem?_map, hq2]
            rfl
          cases hc : q.labels.contains nm with
          | true => rw [hdel, if_pos hc]
          | false =>
              rw [hdel, if_neg (by rw [hc]; exact Bool.false_ne_true)]
              rw [filter_ne_of_not_contains q.labels nm hc]

/-- C6 witness: renaming the label "work" to "job" in a store with two prompts
rewrites the reference in the first prompt; deleting the label "other" strips
it from the second prompt without deleting any prompt. -/
theorem label_rename_delete_consistency_witness :
    (⟨[⟨"p1", "c1", ["job", "x"], none⟩, ⟨"p2", "c2", ["other"], none⟩],
        [⟨"job", "ctx", none, none⟩, ⟨"other", "ctx2", none, none⟩]⟩ : StorageData).prompts.length
      = (⟨[⟨"p1", "c1", ["work", "x"], none⟩, ⟨"p2", "c2", ["other"], none⟩],
        [⟨"work", "ctx", none, none⟩, ⟨"other", "ctx2", none, none⟩]⟩ : StorageData).prompts.length
    ∧ (⟨[⟨"p1", "c1", ["job", "x"], none⟩, ⟨"p2", "c2", ["other"], none⟩],
        [⟨"job", "ctx", none, none⟩, ⟨"other", "ctx2", none, none⟩]⟩ : StorageData).prompts[0]?
      = some ⟨"p1", "c1",
          (["work", "x"] : List String).map
            (fun labelName => if labelName = "work" then "job" else labelName), none⟩
    ∧ ("work" ∉ (["work", "x"] : List String) →
        (⟨[⟨"p1", "c1", ["job", "x"], none⟩, ⟨"p2", "c2", ["other"], none⟩],
          [⟨"job", "ctx", none, none⟩, ⟨"other", "ctx2", none, none⟩]⟩ : StorageData).prompts[0]?
        = some ⟨"p1", "c1", ["work", "x"], none⟩)
    ∧ (deleteLabel "other"
        ⟨[⟨"p1", "c1", ["work", "x"], none⟩, ⟨"p2", "c2", ["other"], none⟩],
         [⟨"work", "ctx", none, none⟩,
          ⟨"other", "ctx2", none, none⟩]⟩).prompts.length
      = (⟨[⟨"p1", "c1", ["work", "x"], none⟩, ⟨"p2", "c2", ["other"], none⟩],
          [⟨"work", "ctx", none, none⟩,
           ⟨"other", "ctx2", none, none⟩]⟩ : StorageData).prompts.length
    ∧ (deleteLabel "other"
        ⟨[⟨"p1", "c1", ["work", "x"], none⟩, ⟨"p2", "c2", ["other"], none⟩],
         [⟨"work", "ctx", none, none⟩,
          ⟨"other", "ctx2", none, none⟩]⟩).prompts[1]?
      = some ⟨"p2", "c2",
          (["other"] : List String).filter (fun labelName => !(labelName == "other")), none⟩ :=
  label_rename_delete_consistency ⟨"job", "ctx", none, none⟩ "work"
    ⟨[⟨"p1", "c1", ["work", "x"], none⟩, ⟨"p2", "c2", ["other"], none⟩],
     [⟨"work", "ctx", none, none⟩, ⟨"other", "ctx2", none, none⟩]⟩
    ⟨[⟨"p1", "c1", ["job", "x"], none⟩, ⟨"p2", "c2", ["other"], none⟩],
     [⟨"job", "ctx", none, none⟩, ⟨"other", "ctx2", none, none⟩]⟩
    0 ⟨"p1", "c1", ["work", "x"], none⟩
    "other"
    ⟨[⟨"p1", "c1", ["work", "x"], none⟩, ⟨"p2", "c2", ["other"], none⟩],
     [⟨"work", "ctx", none, none⟩, ⟨"other", "ctx2", none, none⟩]⟩
    1 ⟨"p2", "c2", ["other"], none⟩
    rfl (by decide) rfl rfl

end IntentPrompts
